import Mathlib

/-!
Verification of the tuya-backend polling/aggregation service.

The JavaScript source (src/index.js, src/tuya.js) is shallowly embedded:
instants are milliseconds since the Unix epoch as integers, JS numbers are
exact rationals, JS floor division of timestamps (setUTCHours(0,0,0,0),
toISOString date part, the Mongo hour operator) is Int.fdiv, and the
process-local timezone that JS Date methods such as setHours and
toLocaleDateString consult is an explicit fixed serverOffset parameter
(milliseconds east of UTC; the spec only requires DST-free fixed-offset
zones). Fallible upstream calls are passed in as Except values.
-/

set_option maxHeartbeats 1000000

namespace TuyaBackend

/-- A JavaScript value held in a device status entry: the upstream device
reports numeric codes (modelled as exact rationals) and boolean codes. -/
inductive JValue where
  | num (q : ℚ)
  | bool (b : Bool)
deriving DecidableEq, Repr

/-- One element of the status array returned by the upstream device:
a code string paired with its value. -/
structure StatusEntry where
  code : String
  value : JValue
deriving DecidableEq, Repr

/-- A persisted telemetry sample (document of the device_data collection):
capture instant in ms since epoch plus the raw status array. -/
structure Sample where
  timestamp : Int
  status : List StatusEntry
deriving DecidableEq, Repr

/-- The statusArray argument of getValue as seen from JS: it may be
null or undefined, present but not an array, or an actual array. -/
inductive JStatus where
  | absent
  | notArray
  | arr (entries : List StatusEntry)
deriving DecidableEq, Repr

/-- JS division of a status value by 10; a boolean coerces to 1 or 0
under JS arithmetic. -/
def divValBy10 : JValue → JValue
  | .num q => .num (q / 10)
  | .bool b => .num (if b then (1 : ℚ) / 10 else 0)

/-- getValue from src/index.js lines 435-443: 0 for a missing or malformed
status or an absent code; cur_voltage and cur_power divided by 10;
cur_current and any other code returned raw. -/
def getValue (statusArray : JStatus) (code : String) : JValue :=
  match statusArray with
  | .absent => .num 0
  | .notArray => .num 0
  | .arr entries =>
    match entries.find? (fun s => s.code == code) with
    | none => .num 0
    | some item =>
      if code == "cur_voltage" then divValBy10 item.value
      else if code == "cur_power" then divValBy10 item.value
      else if code == "cur_current" then item.value
      else item.value

/-! ### Poll loop failure handling (src/index.js lines 35-83) -/

/-- The configured consecutive-failure threshold (src/index.js line 36). -/
def maxConsecutiveFailures : Nat := 40

/-- The outcome of one tick of pollDeviceStatus: either the upstream fetch
succeeded or it threw. -/
inductive PollEvent where
  | success
  | failure
deriving DecidableEq, Repr

/-- Observable effects of one tick of pollDeviceStatus on the failure
machinery: the new consecutiveFailures counter, how many error-notice
broadcasts were sent, and how many process exits were scheduled. -/
structure TickOutcome where
  counter : Nat
  errorBroadcasts : Nat
  exitsScheduled : Nat
deriving DecidableEq, Repr

/-- One tick of pollDeviceStatus (src/index.js lines 38-80): success resets
the counter; a failure increments it and, whenever the incremented counter
is at least the threshold, broadcasts one error notice and schedules one
delayed process exit. -/
def pollTick (c : Nat) : PollEvent → TickOutcome
  | .success => ⟨0, 0, 0⟩
  | .failure =>
      if c + 1 ≥ maxConsecutiveFailures then ⟨c + 1, 1, 1⟩ else ⟨c + 1, 0, 0⟩

/-- Final consecutiveFailures counter after a run of poll ticks. -/
def runCounter : Nat → List PollEvent → Nat
  | c, [] => c
  | c, e :: rest => runCounter (pollTick c e).counter rest

/-- Total error-notice broadcasts over a run of poll ticks. -/
def runErrorBroadcasts : Nat → List PollEvent → Nat
  | _, [] => 0
  | c, e :: rest =>
      (pollTick c e).errorBroadcasts + runErrorBroadcasts (pollTick c e).counter rest

/-- Total scheduled process exits over a run of poll ticks. -/
def runExitsScheduled : Nat → List PollEvent → Nat
  | _, [] => 0
  | c, e :: rest =>
      (pollTick c e).exitsScheduled + runExitsScheduled (pollTick c e).counter rest

/-! ### Token cache (src/tuya.js lines 11-49) -/

/-- The module-level token cache of src/tuya.js: cachedToken starts as null
(none) and cachedTokenExpire as an instant. -/
structure TokenState where
  cachedToken : Option String
  cachedTokenExpire : Int
deriving DecidableEq, Repr

/-- The relevant part of a successful response of the upstream token
endpoint: res.data.result.access_token and res.data.result.expire_time. -/
structure TokenResult where
  access_token : String
  expire_time : Int
deriving DecidableEq, Repr

/-- JS truthiness of the cachedToken variable: null is falsy and so is the
empty string. -/
def tokenTruthy : Option String → Bool
  | none => false
  | some s => !(s == "")

/-- getAccessToken from src/tuya.js lines 28-49. The upstream HTTP call is
passed in as an Except value. The result is the returned token or the
propagated error, the token cache after the call, and whether a fresh
upstream fetch was issued. -/
def getAccessToken (st : TokenState) (now : Int)
    (upstream : Except String TokenResult) :
    Except String String × TokenState × Bool :=
  if tokenTruthy st.cachedToken && decide (now < st.cachedTokenExpire) then
    (Except.ok (st.cachedToken.getD ""), st, false)
  else
    match upstream with
    | .error e => (.error e, st, true)
    | .ok r =>
        (.ok r.access_token,
          ⟨some r.access_token, now + r.expire_time - 60 * 1000⟩, true)

/-! ### Switch control endpoint (src/index.js lines 86-122) -/

/-- The upstream response object of controlDeviceSwitch as the handler
inspects it: only its success field matters, which may be missing (none)
or hold any JS value. -/
structure SwitchResp where
  success : Option JValue
deriving DecidableEq, Repr

/-- The HTTP reply of the POST /switch handler: status code and the
success flag of the JSON body. -/
structure HttpReply where
  status : Nat
  ok : Bool
deriving DecidableEq, Repr

/-- POST /switch handler from src/index.js lines 86-122: a non-boolean
state is rejected with 400; a thrown upstream error or a falsy upstream
result yields 500; otherwise success exactly when the success field of the
result is not literally false. -/
def handleSwitch (state : Option JValue)
    (upstream : Except String (Option SwitchResp)) : HttpReply :=
  match state with
  | some (.bool _) =>
      match upstream with
      | .error _ => ⟨500, false⟩
      | .ok none => ⟨500, false⟩
      | .ok (some r) =>
          if r.success == some (.bool false) then ⟨500, false⟩ else ⟨200, true⟩
  | _ => ⟨400, false⟩

/-! ### Time window and skeleton helpers (src/index.js lines 445-505, 702-736) -/

/-- Milliseconds per hour. -/
def msPerHour : Int := 3600000

/-- Milliseconds per day. -/
def msPerDay : Int := 86400000

/-- The fixed GMT+6 offset of Asia/Dhaka in milliseconds. -/
def dhakaOffsetMs : Int := 6 * msPerHour

/-- setUTCHours(0,0,0,0): floor an instant to the enclosing UTC day start. -/
def floorToDayStart (t : Int) : Int := (t.fdiv msPerDay) * msPerDay

/-- getTodayStartInTimezone from src/index.js lines 702-718. For Asia/Dhaka
the code shifts by +6h, floors to the UTC day and shifts back; for every
other timezone it calls setHours(0,0,0,0), which floors in the timezone of
the server process, modelled by serverOffset. -/
def getTodayStartInTimezone (timezone : String) (serverOffset now : Int) :
    Int :=
  if timezone == "Asia/Dhaka" then
    floorToDayStart (now + dhakaOffsetMs) - dhakaOffsetMs
  else
    floorToDayStart (now + serverOffset) - serverOffset

/-- getTodayEndInTimezone from src/index.js lines 720-736: as the start but
with setUTCHours(23,59,59,999), i.e. day start plus 86399999 ms. -/
def getTodayEndInTimezone (timezone : String) (serverOffset now : Int) :
    Int :=
  if timezone == "Asia/Dhaka" then
    (floorToDayStart (now + dhakaOffsetMs) + (msPerDay - 1)) - dhakaOffsetMs
  else
    (floorToDayStart (now + serverOffset) + (msPerDay - 1)) - serverOffset

/-- Modelled from the words of the spec and claim C4: the UTC instant of
local 00:00:00.000 of the current day in a fixed-offset timezone (offset
applied, floored to the local day, offset subtracted back). This is the
reference definition the code is compared against. -/
def specLocalMidnightUtc (offset now : Int) : Int :=
  floorToDayStart (now + offset) - offset

/-- getLocalDateString from src/index.js lines 445-451, with a YYYY-MM-DD
calendar date modelled as its epoch-day number (the string form of both
toISOString and the en-CA locale format is in order- and
equality-preserving bijection with epoch days). For Asia/Dhaka the code
shifts by +6h and takes the toISOString date; otherwise toLocaleDateString
uses the timezone of the server process, modelled by serverOffset. -/
def getLocalDateString (timezone : String) (serverOffset t : Int) : Int :=
  if timezone == "Asia/Dhaka" then (t + dhakaOffsetMs).fdiv msPerDay
  else (t + serverOffset).fdiv msPerDay

/-- Modelled from the words of the spec and claim C6: the calendar date
(epoch-day number) of an instant in a fixed-offset timezone. -/
def specLocalDay (offset t : Int) : Int := (t + offset).fdiv msPerDay

/-- One hourly aggregate bucket of the today structure. -/
structure HourBucket where
  hour : Int
  power : ℚ
  current : ℚ
  voltage : ℚ
deriving DecidableEq, Repr

/-- One daily aggregate bucket of the week or month structure. -/
structure DayBucket where
  date : Int
  power : ℚ
  current : ℚ
  voltage : ℚ
deriving DecidableEq, Repr

/-- createEmptyTodayData from src/index.js lines 453-459: 24 all-zero
hourly buckets, hours 0 to 23. -/
def createEmptyTodayData : List HourBucket :=
  (List.range 24).map (fun h => ⟨(h : Int), 0, 0, 0⟩)

/-- createEmptyWeekData from src/index.js lines 461-482: the loop runs
i = 6 down to 0 pushing the local date of (now minus i days); the
reversed range models the downward loop. -/
def createEmptyWeekData (timezone : String) (serverOffset now : Int) :
    List DayBucket :=
  ((List.range 7).reverse).map (fun (i : ℕ) =>
    ⟨getLocalDateString timezone serverOffset (now - (i : Int) * msPerDay),
      0, 0, 0⟩)

/-- createEmptyMonthData from src/index.js lines 484-505: the loop runs
i = 29 down to 0. -/
def createEmptyMonthData (timezone : String) (serverOffset now : Int) :
    List DayBucket :=
  ((List.range 30).reverse).map (fun (i : ℕ) =>
    ⟨getLocalDateString timezone serverOffset (now - (i : Int) * msPerDay),
      0, 0, 0⟩)

/-! ### Week/month merge loop (src/index.js lines 329-337 and 419-426) -/

/-- One pivoted row of the bucket-and-average query for a calendar date:
each of the three aggregates may be null when no numeric value of its code
fell on that date. -/
structure DayRow where
  date : Int
  power : Option ℚ
  current : Option ℚ
  voltage : Option ℚ
deriving DecidableEq, Repr

/-- Field update applied to the matched skeleton entry: each non-null
aggregate overwrites the bucket value; the date field is never written. -/
def mergeDayBucket (b : DayBucket) (r : DayRow) : DayBucket :=
  ⟨b.date, r.power.getD b.power, r.current.getD b.current,
    r.voltage.getD b.voltage⟩

/-- The findIndex-then-update body of the merge loop: the first skeleton
entry whose date equals the row date is updated in place; when no entry
matches, the row is dropped. -/
def applyDayRow : List DayBucket → DayRow → List DayBucket
  | [], _ => []
  | b :: rest, r =>
      if b.date == r.date then mergeDayBucket b r :: rest
      else b :: applyDayRow rest r

/-- The result.forEach merge loop over all returned rows. -/
def mergeRows (skel : List DayBucket) (rows : List DayRow) : List DayBucket :=
  rows.foldl applyDayRow skel

/-! ### Active-energy consumption pipeline (src/index.js lines 539-692)

The Mongo aggregation is modelled stage by stage: samples of the
today window are unwound, the cur_power and switch_1 entries are merged
back into a status object (arrayToObject keeps the last occurrence of a
duplicated key), documents qualify when switch_1 is the boolean true and
cur_power is a present numeric value, the qualifying points are sorted by
timestamp, each point is charged (cur_power / 10000) kW times the hours
since the previous qualifying point (zero for the first), and the sums
are returned rounded by toFixed(4) and toFixed(2). The store invariant
gives pairwise distinct timestamps, so the stable-sort order is total. -/

/-- Lookup of a code with last-occurrence-wins semantics, as arrayToObject
produces it for the statusObj of the consumption pipeline. -/
def lastValue (entries : List StatusEntry) (code : String) : Option JValue :=
  (entries.reverse.find? (fun e => e.code == code)).map StatusEntry.value

/-- The qualifying power of a sample: its numeric cur_power value when
switch_1 is the boolean true and cur_power is present and numeric,
matching the match stage on statusObj (a non-numeric cur_power would make
the later divide stage error out upstream and is outside the model). -/
def qualPower (s : Sample) : Option ℚ :=
  match lastValue s.status "switch_1", lastValue s.status "cur_power" with
  | some (.bool true), some (.num p) => some p
  | _, _ => none

/-- Stages 1-6 of the pipeline: restrict to the window from todayStart to
the request instant and keep (timestamp, cur_power) of qualifying
samples. -/
def qualifyingPoints (samples : List Sample) (todayStart now : Int) :
    List (Int × ℚ) :=
  (samples.filter (fun s =>
      decide (todayStart ≤ s.timestamp) && decide (s.timestamp ≤ now))).filterMap
    (fun s => (qualPower s).map (fun p => (s.timestamp, p)))

/-- Insertion step of the timestamp sort of stage 7. -/
def insertByTime (x : Int × ℚ) : List (Int × ℚ) → List (Int × ℚ)
  | [] => [x]
  | y :: rest => if x.1 < y.1 then x :: y :: rest else y :: insertByTime x rest

/-- Stage 7: sort the qualifying points by timestamp ascending. -/
def sortByTime (l : List (Int × ℚ)) : List (Int × ℚ) :=
  l.foldr insertByTime []

/-- Stages 8-9 for one point: powerKw is cur_power / 10000 and the
duration is the time since the previous qualifying timestamp in hours, 0
when there is none. -/
def intervalKwh (prev : Option Int) (t : Int) (p : ℚ) : ℚ :=
  (p / 10000) *
    (match prev with
      | none => 0
      | some pt => ((t - pt : Int) : ℚ) / 3600000)

/-- Stage 10: total kWh of the run, threading the previous qualifying
timestamp exactly as the shift-by-one window function does. -/
def totalKwhFrom (prev : Option Int) : List (Int × ℚ) → ℚ
  | [] => 0
  | (t, p) :: rest => intervalKwh prev t p + totalKwhFrom (some t) rest

/-- parseFloat(x.toFixed(n)) on a nonnegative amount: round to n decimal
places (the numeric model is exact rational arithmetic). -/
def roundToDec (n : Nat) (q : ℚ) : ℚ := ((round (q * 10 ^ n) : ℤ) : ℚ) / 10 ^ n

/-- The data object of the GET /today-consumption response. -/
structure ConsumptionResult where
  kwh : ℚ
  cost : ℚ
  dataPoints : Nat
deriving DecidableEq, Repr

/-- The GET /today-consumption handler: the all-zero object when no
document reaches the final group stage, otherwise the rounded total, the
rounded cost at 10 currency units per kWh, and the qualifying count. -/
def todayConsumption (samples : List Sample) (todayStart now : Int) :
    ConsumptionResult :=
  let pts := sortByTime (qualifyingPoints samples todayStart now)
  if pts.isEmpty then ⟨0, 0, 0⟩
  else
    ⟨roundToDec 4 (totalKwhFrom none pts),
      roundToDec 2 (totalKwhFrom none pts * 10), pts.length⟩

/-- Modelled from the words of claim C2: the sum over each qualifying
sample after the first of (cur_power_raw / 10000) times
((timestamp - previousQualifyingTimestamp) / 3600000), the first
qualifying sample contributing zero. -/
def specKwhSum : List (Int × ℚ) → ℚ
  | [] => 0
  | [_] => 0
  | a :: b :: rest =>
      (b.2 / 10000) * (((b.1 - a.1 : Int) : ℚ) / 3600000) +
        specKwhSum (b :: rest)

/-- Concrete sample for the C2 counterexample: switch on, cur_power raw 1,
captured at the epoch instant. -/
def consumptionSampleA : Sample :=
  ⟨0, [⟨"switch_1", .bool true⟩, ⟨"cur_power", .num 1⟩]⟩

/-- Concrete sample for the C2 counterexample: switch on, cur_power raw 1,
captured 0.1 hour later. -/
def consumptionSampleB : Sample :=
  ⟨360000, [⟨"switch_1", .bool true⟩, ⟨"cur_power", .num 1⟩]⟩

/-! ### Today aggregation (src/index.js lines 164-252)

The bucket-and-average pipeline of getTodayDataFromDB: match the today
window, unwind the status array into (hour, code, value) facts where the
hour is extracted with the timezone hardcoded to Asia/Dhaka, group by
(hour, code) averaging the numeric values (the Mongo avg skips
non-numeric values and empty groups yield null), pivot into one row per
hour averaging the scaled per-code values (null entries skipped), and
write each row into the 24-entry skeleton at its hour index, skipping
null fields. Group output order is irrelevant because the merge writes by
hour. -/

/-- The hour key of the first group stage: hour of day of the sample
instant in Asia/Dhaka, hardcoded in the pipeline regardless of the
requested timezone. -/
def dhakaHourOf (t : Int) : Int := ((t + dhakaOffsetMs).fdiv msPerHour) % 24

/-- Modelled from the words of claim C7: the hour of day of an instant in
the requested fixed-offset timezone. -/
def specHourInZone (offset t : Int) : Int :=
  ((t + offset).fdiv msPerHour) % 24

/-- One unwound fact of the today pipeline: the Dhaka hour of the sample,
a status code and its value. -/
structure HourFact where
  hour : Int
  code : String
  value : JValue
deriving DecidableEq, Repr

/-- Match and unwind stages of the today pipeline. -/
def unwindToday (samples : List Sample) (startT endT : Int) :
    List HourFact :=
  ((samples.filter (fun s =>
      decide (startT ≤ s.timestamp) && decide (s.timestamp ≤ endT))).map
    (fun s => s.status.map (fun e =>
      ({ hour := dhakaHourOf s.timestamp, code := e.code, value := e.value }
        : HourFact)))).flatten

/-- The numeric values among a list of JS values, as the Mongo avg sees
them (booleans and other non-numeric values are skipped). -/
def numOnly : JValue → Option ℚ
  | .num q => some q
  | .bool _ => none

/-- Mongo avg: null on an empty input list, otherwise the mean. -/
def avgOpt (l : List ℚ) : Option ℚ :=
  if l.isEmpty then none else some (l.sum / (l.length : ℚ))

/-- One row of the first group stage: a (hour, code) key with the average
numeric value. -/
structure HourCodeRow where
  hour : Int
  code : String
  value : Option ℚ
deriving DecidableEq, Repr

/-- First group stage: one row per distinct (hour, code) key with the
average of the numeric values under that key. -/
def group1 (facts : List HourFact) : List HourCodeRow :=
  ((facts.map (fun f => (f.hour, f.code))).dedup).map (fun k =>
    ⟨k.1, k.2,
      avgOpt ((facts.filter (fun f => f.hour == k.1 && f.code == k.2)).filterMap
        (fun f => numOnly f.value))⟩)

/-- One pivoted row of the second group stage. -/
structure HourRow where
  hour : Int
  power : Option ℚ
  current : Option ℚ
  voltage : Option ℚ
deriving DecidableEq, Repr

/-- Second group stage for one hour: average the /10-scaled cur_power
values, the raw cur_current values and the /10-scaled cur_voltage values
of the rows under that hour; conditional mismatches and null values are
skipped by the outer avg. -/
def pivotHour (rows : List HourCodeRow) (h : Int) : HourRow :=
  let mine := rows.filter (fun r => r.hour == h)
  ⟨h,
    avgOpt (mine.filterMap (fun r =>
      if r.code == "cur_power" then r.value.map (fun v => v / 10) else none)),
    avgOpt (mine.filterMap (fun r =>
      if r.code == "cur_current" then r.value else none)),
    avgOpt (mine.filterMap (fun r =>
      if r.code == "cur_voltage" then r.value.map (fun v => v / 10) else none))⟩

/-- Second group stage: one pivoted row per distinct hour. -/
def group2 (rows : List HourCodeRow) : List HourRow :=
  ((rows.map HourCodeRow.hour).dedup).map (pivotHour rows)

/-- The merge of one result row into the skeleton: the JS code writes
todayData[hour], i.e. the bucket whose hour equals the row hour, setting
only the non-null fields. -/
def applyHourRow (skel : List HourBucket) (r : HourRow) : List HourBucket :=
  skel.map (fun b =>
    if b.hour == r.hour then
      ⟨b.hour, r.power.getD b.power, r.current.getD b.current,
        r.voltage.getD b.voltage⟩
    else b)

/-- getTodayDataFromDB from src/index.js lines 164-252: window from the
requested timezone, pipeline with the hardcoded Dhaka hour key, merge
into the 24-entry skeleton. -/
def getTodayDataFromDB (samples : List Sample) (timezone : String)
    (serverOffset now : Int) : List HourBucket :=
  let startT := getTodayStartInTimezone timezone serverOffset now
  let endT := getTodayEndInTimezone timezone serverOffset now
  (group2 (group1 (unwindToday samples startT endT))).foldl
    applyHourRow createEmptyTodayData

/-! ### Theorems for claims C1, C3, C5, C8, C10 -/

/-- Helper for C1: over a run of n consecutive failures starting from
counter c, the number of threshold firings is (c + n) - max c 39. -/
theorem runErrorBroadcasts_replicate_failure (n : Nat) :
    ∀ c, runErrorBroadcasts c (List.replicate n PollEvent.failure) =
      (c + n) - max c (maxConsecutiveFailures - 1) := by
  induction n with
  | zero =>
      intro c
      simp [runErrorBroadcasts, maxConsecutiveFailures]
  | succ n ih =>
      intro c
      rw [List.replicate_succ]
      simp only [runErrorBroadcasts, pollTick, maxConsecutiveFailures] at *
      by_cases h : 40 ≤ c + 1
      · rw [if_pos h]
        simp only [ih]
        omega
      · rw [if_neg h]
        simp only [ih]
        omega

/-- Helper for C1: scheduled exits coincide with error broadcasts on
every run, since both are emitted by the same threshold branch. -/
theorem runExitsScheduled_eq_broadcasts :
    ∀ (evs : List PollEvent) (c : Nat),
      runExitsScheduled c evs = runErrorBroadcasts c evs := by
  intro evs
  induction evs with
  | nil => intro c; rfl
  | cons e rest ih =>
      intro c
      simp only [runExitsScheduled, runErrorBroadcasts, ih]
      cases e
      · simp [pollTick]
      · simp only [pollTick]
        split <;> rfl

/-- C1 counterexample: a run of 41 consecutive failures from a reset
counter sends 2 error-notice broadcasts and schedules 2 process exits,
refuting that exactly one broadcast and one scheduled termination occur
no matter how many further consecutive failures follow the threshold.
(The 41st failure happens one 5s poll interval after the 40th, inside the
10s window before the first scheduled exit fires.) -/
theorem C1_counterexample :
    runErrorBroadcasts 0 (List.replicate 41 PollEvent.failure) = 2 ∧
    runExitsScheduled 0 (List.replicate 41 PollEvent.failure) = 2 ∧
    (2 : Nat) ≠ 1 := by
  refine ⟨by decide, by decide, by decide⟩

/-- C1 amended: after any successful poll the consecutive-failure counter
is 0, and each failure that brings the counter to the threshold of 40 or
beyond triggers one error-notice broadcast and one scheduled process
termination, so a run of n consecutive failures from a reset counter
produces n - 39 broadcasts and n - 39 scheduled terminations (0 when the
threshold is never reached), not exactly one. -/
theorem C1_amended (c n : Nat) :
    (pollTick c PollEvent.success).counter = 0 ∧
    runErrorBroadcasts 0 (List.replicate n PollEvent.failure) =
      n - (maxConsecutiveFailures - 1) ∧
    runExitsScheduled 0 (List.replicate n PollEvent.failure) =
      n - (maxConsecutiveFailures - 1) := by
  refine ⟨rfl, ?_, ?_⟩
  · rw [runErrorBroadcasts_replicate_failure]
    simp [maxConsecutiveFailures]
  · rw [runExitsScheduled_eq_broadcasts, runErrorBroadcasts_replicate_failure]
    simp [maxConsecutiveFailures]

/-- C3: getValue returns 0 when the status is absent, not an array, or the
requested code is not found; when found, cur_voltage and cur_power raw
values are divided by 10 (2322 yields 232.2, 4176 yields 417.6) and
cur_current raw values are returned unscaled. -/
theorem C3_getValue_scaling (entries : List StatusEntry) (code : String)
    (raw : ℚ) :
    getValue .absent code = .num 0 ∧
    getValue .notArray code = .num 0 ∧
    (entries.find? (fun s => s.code == code) = none →
      getValue (.arr entries) code = .num 0) ∧
    (entries.find? (fun s => s.code == "cur_voltage") =
        some ⟨"cur_voltage", .num raw⟩ →
      getValue (.arr entries) "cur_voltage" = .num (raw / 10)) ∧
    (entries.find? (fun s => s.code == "cur_power") =
        some ⟨"cur_power", .num raw⟩ →
      getValue (.arr entries) "cur_power" = .num (raw / 10)) ∧
    (entries.find? (fun s => s.code == "cur_current") =
        some ⟨"cur_current", .num raw⟩ →
      getValue (.arr entries) "cur_current" = .num raw) := by
  refine ⟨rfl, rfl, ?_, ?_, ?_, ?_⟩ <;> intro h <;> simp [getValue, h, divValBy10]

/-- C3 witness: the claim instantiated at the concrete raw values named by
the spec, discharging every hypothesis at a concrete status array. -/
theorem C3_getValue_scaling_witness :
    getValue (.arr [⟨"cur_voltage", .num 2322⟩]) "cur_voltage" =
      .num (2322 / 10) ∧
    getValue (.arr [⟨"cur_power", .num 4176⟩]) "cur_power" =
      .num (4176 / 10) ∧
    getValue (.arr [⟨"switch_1", .bool true⟩]) "cur_current" = .num 0 := by
  refine ⟨?_, ?_, ?_⟩
  · exact (C3_getValue_scaling [⟨"cur_voltage", .num 2322⟩] "cur_voltage"
      2322).2.2.2.1 (by decide)
  · exact (C3_getValue_scaling [⟨"cur_power", .num 4176⟩] "cur_power"
      4176).2.2.2.2.1 (by decide)
  · exact (C3_getValue_scaling [⟨"switch_1", .bool true⟩] "cur_current"
      0).2.2.1 (by decide)

/-- C5: getAccessToken returns the cached token without a fetch while the
cache holds a token and the call instant is strictly before the cached
expiry; otherwise it issues exactly one fresh fetch and caches the new
token with expiry set to the fetch instant plus the upstream-declared
expire_time minus 60000 ms. -/
theorem C5_token_cache (st : TokenState) (now : Int)
    (upstream : Except String TokenResult) (tok : String) (r : TokenResult) :
    (st.cachedToken = some tok → tok ≠ "" → now < st.cachedTokenExpire →
      getAccessToken st now upstream = (.ok tok, st, false)) ∧
    (tokenTruthy st.cachedToken = false ∨ st.cachedTokenExpire ≤ now →
      getAccessToken st now (.ok r) =
        (.ok r.access_token,
          ⟨some r.access_token, now + r.expire_time - 60 * 1000⟩, true)) := by
  constructor
  · intro hc hne hlt
    simp [getAccessToken, hc, tokenTruthy, hne, hlt]
  · intro h
    rcases h with h | h
    · simp [getAccessToken, h]
    · have : ¬ now < st.cachedTokenExpire := not_lt.mpr h
      simp [getAccessToken, this]

/-- C5 witness: the cached branch and the refresh branch instantiated at
concrete states, with every hypothesis discharged. -/
theorem C5_token_cache_witness :
    getAccessToken ⟨some "tok", 100⟩ 50 (.ok ⟨"fresh", 7200000⟩) =
      (.ok "tok", ⟨some "tok", 100⟩, false) ∧
    getAccessToken ⟨none, 0⟩ 50 (.ok ⟨"fresh", 7200000⟩) =
      (.ok "fresh", ⟨some "fresh", 50 + 7200000 - 60 * 1000⟩, true) := by
  constructor
  · exact (C5_token_cache ⟨some "tok", 100⟩ 50 (.ok ⟨"fresh", 7200000⟩)
      "tok" ⟨"fresh", 7200000⟩).1 rfl (by decide) (by decide)
  · exact (C5_token_cache ⟨none, 0⟩ 50 (.ok ⟨"fresh", 7200000⟩)
      "x" ⟨"fresh", 7200000⟩).2 (Or.inl rfl)

/-- C10: when the upstream token call fails, getAccessToken leaves the
token cache unchanged and, whenever the fetch branch was taken at all,
propagates the error to the caller; the cache is mutated only by a
successful response. -/
theorem C10_token_error_keeps_cache (st : TokenState) (now : Int)
    (e : String) :
    (getAccessToken st now (.error e)).2.1 = st ∧
    (tokenTruthy st.cachedToken = false ∨ st.cachedTokenExpire ≤ now →
      (getAccessToken st now (.error e)).1 = .error e) := by
  constructor
  · by_cases h : tokenTruthy st.cachedToken && decide (now < st.cachedTokenExpire)
    · simp [getAccessToken, h]
    · simp only [getAccessToken]
      rw [if_neg (by simpa using h)]
  · intro h
    rcases h with h | h
    · simp [getAccessToken, h]
    · have : ¬ now < st.cachedTokenExpire := not_lt.mpr h
      simp [getAccessToken, this]

/-- C10 witness: an expired cache and a failing upstream call at a concrete
state, with the hypothesis discharged. -/
theorem C10_token_error_keeps_cache_witness :
    (getAccessToken ⟨some "old", 40⟩ 50 (.error "boom")).2.1 =
      ⟨some "old", 40⟩ ∧
    (getAccessToken ⟨some "old", 40⟩ 50 (.error "boom")).1 =
      .error "boom" := by
  refine ⟨(C10_token_error_keeps_cache ⟨some "old", 40⟩ 50 "boom").1, ?_⟩
  exact (C10_token_error_keeps_cache ⟨some "old", 40⟩ 50 "boom").2
    (Or.inr (by decide))

/-- C8: for a boolean state, the switch handler reports success exactly
when the upstream response is present (truthy) and its success field is
not literally false, even when the response is otherwise incomplete; an
explicit failure flag, an absent response, and a thrown upstream error
each yield a 500 failure reply. -/
theorem C8_switch_success_criterion (b : Bool) (r : SwitchResp) (e : String) :
    handleSwitch (some (.bool b)) (.ok (some r)) =
      (if r.success == some (.bool false) then ⟨500, false⟩
        else ⟨200, true⟩) ∧
    handleSwitch (some (.bool b)) (.ok (some ⟨none⟩)) = ⟨200, true⟩ ∧
    handleSwitch (some (.bool b)) (.ok (some ⟨some (.bool false)⟩)) =
      ⟨500, false⟩ ∧
    handleSwitch (some (.bool b)) (.ok none) = ⟨500, false⟩ ∧
    handleSwitch (some (.bool b)) (.error e) = ⟨500, false⟩ := by
  refine ⟨rfl, rfl, rfl, rfl, rfl⟩

/-! ### Theorems for claims C4, C6, C9 -/

/-- C4 counterexample: with the server process in GMT+6 (the plausible
deployment zone) at the epoch instant, the requested timezone UTC yields a
window start of minus 6 hours instead of the UTC midnight instant 0, an
off-by-six-hours boundary error. -/
theorem C4_counterexample :
    getTodayStartInTimezone "UTC" dhakaOffsetMs 0 = -21600000 ∧
    specLocalMidnightUtc 0 0 = 0 ∧
    getTodayStartInTimezone "UTC" dhakaOffsetMs 0 ≠ specLocalMidnightUtc 0 0 := by
  refine ⟨by decide, by decide, by decide⟩

/-- C4 amended: for Asia/Dhaka the today-window start and end are exactly
the UTC instants of Dhaka-local 00:00:00.000 and 23:59:59.999 of the
current day, for every call instant and server zone; for any other
requested timezone (UTC included) the code computes the window in the
local timezone of the server process, which coincides with the requested
zone exactly in the UTC case on a server whose offset is 0. -/
theorem C4_amended (serverOffset now : Int) :
    (getTodayStartInTimezone "Asia/Dhaka" serverOffset now =
        specLocalMidnightUtc dhakaOffsetMs now ∧
      getTodayEndInTimezone "Asia/Dhaka" serverOffset now =
        specLocalMidnightUtc dhakaOffsetMs now + (msPerDay - 1)) ∧
    (getTodayStartInTimezone "UTC" serverOffset now =
        specLocalMidnightUtc serverOffset now ∧
      getTodayEndInTimezone "UTC" serverOffset now =
        specLocalMidnightUtc serverOffset now + (msPerDay - 1)) ∧
    (serverOffset = 0 →
      getTodayStartInTimezone "UTC" serverOffset now =
          specLocalMidnightUtc 0 now ∧
        getTodayEndInTimezone "UTC" serverOffset now =
          specLocalMidnightUtc 0 now + (msPerDay - 1)) := by
  refine ⟨⟨?_, ?_⟩, ⟨?_, ?_⟩, ?_⟩
  · simp [getTodayStartInTimezone, specLocalMidnightUtc]
  · simp [getTodayEndInTimezone, specLocalMidnightUtc]
    try omega
  · simp [getTodayStartInTimezone, specLocalMidnightUtc]
  · simp [getTodayEndInTimezone, specLocalMidnightUtc]
    try omega
  · intro h
    subst h
    constructor
    · simp [getTodayStartInTimezone, specLocalMidnightUtc]
    · simp [getTodayEndInTimezone, specLocalMidnightUtc]
      try omega

/-- C4 witness: the amended claim instantiated on a UTC server at a
concrete instant, discharging the serverOffset hypothesis. -/
theorem C4_amended_witness :
    getTodayStartInTimezone "UTC" 0 86400123 =
      specLocalMidnightUtc 0 86400123 ∧
    getTodayEndInTimezone "UTC" 0 86400123 =
      specLocalMidnightUtc 0 86400123 + (msPerDay - 1) ∧
    getTodayStartInTimezone "Asia/Dhaka" 0 86400123 =
      specLocalMidnightUtc dhakaOffsetMs 86400123 := by
  refine ⟨((C4_amended 0 86400123).2.2 rfl).1,
    ((C4_amended 0 86400123).2.2 rfl).2, (C4_amended 0 86400123).1.1⟩

/-- Helper for C6: subtracting whole days shifts the local date by the
same number of days, for any fixed-offset zone. -/
theorem getLocalDateString_shift (timezone : String)
    (serverOffset now i : Int) :
    getLocalDateString timezone serverOffset (now - i * msPerDay) =
      getLocalDateString timezone serverOffset now - i := by
  simp only [getLocalDateString, msPerDay, dhakaOffsetMs, msPerHour]
  split
  · rw [Int.fdiv_eq_ediv _ (by norm_num), Int.fdiv_eq_ediv _ (by norm_num)]
    omega
  · rw [Int.fdiv_eq_ediv _ (by norm_num), Int.fdiv_eq_ediv _ (by norm_num)]
    omega

/-- Helper for C6: the one-day instance of the shift lemma in the shape
left by numeral normalization. -/
theorem getLocalDateString_shift_one (timezone : String)
    (serverOffset now : Int) :
    getLocalDateString timezone serverOffset (now - msPerDay) =
      getLocalDateString timezone serverOffset now - 1 := by
  have h := getLocalDateString_shift timezone serverOffset now 1
  rwa [one_mul] at h

/-- Helper for C6: the dates of the empty week skeleton are the six
previous local dates followed by the local current date, in order. -/
theorem createEmptyWeekData_dates (timezone : String)
    (serverOffset now : Int) :
    (createEmptyWeekData timezone serverOffset now).map DayBucket.date =
      [getLocalDateString timezone serverOffset now - 6,
        getLocalDateString timezone serverOffset now - 5,
        getLocalDateString timezone serverOffset now - 4,
        getLocalDateString timezone serverOffset now - 3,
        getLocalDateString timezone serverOffset now - 2,
        getLocalDateString timezone serverOffset now - 1,
        getLocalDateString timezone serverOffset now] := by
  have h7 : (List.range 7).reverse = [6, 5, 4, 3, 2, 1, 0] := rfl
  unfold createEmptyWeekData
  rw [h7]
  simp only [List.map_cons, List.map_nil]
  norm_num [getLocalDateString_shift, getLocalDateString_shift_one]

/-- Helper for C6: the dates of the empty month skeleton are the 29
previous local dates followed by the local current date, in order. -/
theorem createEmptyMonthData_dates (timezone : String)
    (serverOffset now : Int) :
    (createEmptyMonthData timezone serverOffset now).map DayBucket.date =
      [getLocalDateString timezone serverOffset now - 29,
        getLocalDateString timezone serverOffset now - 28,
        getLocalDateString timezone serverOffset now - 27,
        getLocalDateString timezone serverOffset now - 26,
        getLocalDateString timezone serverOffset now - 25,
        getLocalDateString timezone serverOffset now - 24,
        getLocalDateString timezone serverOffset now - 23,
        getLocalDateString timezone serverOffset now - 22,
        getLocalDateString timezone serverOffset now - 21,
        getLocalDateString timezone serverOffset now - 20,
        getLocalDateString timezone serverOffset now - 19,
        getLocalDateString timezone serverOffset now - 18,
        getLocalDateString timezone serverOffset now - 17,
        getLocalDateString timezone serverOffset now - 16,
        getLocalDateString timezone serverOffset now - 15,
        getLocalDateString timezone serverOffset now - 14,
        getLocalDateString timezone serverOffset now - 13,
        getLocalDateString timezone serverOffset now - 12,
        getLocalDateString timezone serverOffset now - 11,
        getLocalDateString timezone serverOffset now - 10,
        getLocalDateString timezone serverOffset now - 9,
        getLocalDateString timezone serverOffset now - 8,
        getLocalDateString timezone serverOffset now - 7,
        getLocalDateString timezone serverOffset now - 6,
        getLocalDateString timezone serverOffset now - 5,
        getLocalDateString timezone serverOffset now - 4,
        getLocalDateString timezone serverOffset now - 3,
        getLocalDateString timezone serverOffset now - 2,
        getLocalDateString timezone serverOffset now - 1,
        getLocalDateString timezone serverOffset now] := by
  have h30 : (List.range 30).reverse =
      [29, 28, 27, 26, 25, 24, 23, 22, 21, 20, 19, 18, 17, 16, 15, 14, 13,
        12, 11, 10, 9, 8, 7, 6, 5, 4, 3, 2, 1, 0] := rfl
  unfold createEmptyMonthData
  rw [h30]
  simp only [List.map_cons, List.map_nil]
  norm_num [getLocalDateString_shift, getLocalDateString_shift_one]

/-- C6 counterexample: with the server process in GMT+6 at 23:00 UTC of
epoch day 0, the week skeleton for requested timezone UTC ends on epoch
day 1 while the current UTC calendar date is still day 0, so the last
entry is not the current date of the requested timezone. -/
theorem C6_counterexample :
    ((createEmptyWeekData "UTC" dhakaOffsetMs 82800000).getLast?).map
        DayBucket.date = some 1 ∧
    specLocalDay 0 82800000 = 0 ∧
    ((1 : Int) ≠ 0) := by
  refine ⟨by decide, by decide, by decide⟩

/-- C6 amended: the today skeleton always has the 24 hours 0..23 in
ascending order with all values 0; the week and month skeletons have 7 and
30 all-zero entries with strictly ascending dates ending on the current
calendar date as the code computes it, which is the current date of the
requested timezone for Asia/Dhaka but the current date of the local
timezone of the server process for every other requested zone (UTC
included), the two coinciding only when the server offset matches. -/
theorem C6_amended (timezone : String) (serverOffset now : Int) :
    (createEmptyTodayData.map HourBucket.hour =
        (List.range 24).map (fun h => (h : Int)) ∧
      ∀ b ∈ createEmptyTodayData,
        b.power = 0 ∧ b.current = 0 ∧ b.voltage = 0) ∧
    ((createEmptyWeekData timezone serverOffset now).length = 7 ∧
      List.Chain' (fun a b => a.date < b.date)
        (createEmptyWeekData timezone serverOffset now) ∧
      ((createEmptyWeekData timezone serverOffset now).getLast?).map
          DayBucket.date =
        some (getLocalDateString timezone serverOffset now) ∧
      ∀ b ∈ createEmptyWeekData timezone serverOffset now,
        b.power = 0 ∧ b.current = 0 ∧ b.voltage = 0) ∧
    ((createEmptyMonthData timezone serverOffset now).length = 30 ∧
      List.Chain' (fun a b => a.date < b.date)
        (createEmptyMonthData timezone serverOffset now) ∧
      ((createEmptyMonthData timezone serverOffset now).getLast?).map
          DayBucket.date =
        some (getLocalDateString timezone serverOffset now) ∧
      ∀ b ∈ createEmptyMonthData timezone serverOffset now,
        b.power = 0 ∧ b.current = 0 ∧ b.voltage = 0) ∧
    (timezone = "Asia/Dhaka" →
      getLocalDateString timezone serverOffset now =
        specLocalDay dhakaOffsetMs now) ∧
    (timezone ≠ "Asia/Dhaka" →
      getLocalDateString timezone serverOffset now =
        specLocalDay serverOffset now) := by
  have hweek := createEmptyWeekData_dates timezone serverOffset now
  have hmonth := createEmptyMonthData_dates timezone serverOffset now
  refine ⟨⟨by decide, ?_⟩, ⟨?_, ?_, ?_, ?_⟩, ⟨?_, ?_, ?_, ?_⟩, ?_, ?_⟩
  · intro b hb
    simp only [createEmptyTodayData, List.mem_map] at hb
    obtain ⟨h, _, rfl⟩ := hb
    exact ⟨rfl, rfl, rfl⟩
  · have := congrArg List.length hweek
    simpa using this
  · rw [← List.chain'_map DayBucket.date]
    rw [hweek]
    simp only [List.chain'_cons, List.chain'_singleton, and_true]
    omega
  · rw [← List.getLast?_map DayBucket.date]
    rw [hweek]
    rfl
  · intro b hb
    simp only [createEmptyWeekData, List.mem_map] at hb
    obtain ⟨i, _, rfl⟩ := hb
    exact ⟨rfl, rfl, rfl⟩
  · have := congrArg List.length hmonth
    simpa using this
  · rw [← List.chain'_map DayBucket.date]
    rw [hmonth]
    simp only [List.chain'_cons, List.chain'_singleton, and_true]
    refine ⟨?_, ?_⟩ <;> omega
  · rw [← List.getLast?_map DayBucket.date]
    rw [hmonth]
    rfl
  · intro b hb
    simp only [createEmptyMonthData, List.mem_map] at hb
    obtain ⟨i, _, rfl⟩ := hb
    exact ⟨rfl, rfl, rfl⟩
  · intro h
    subst h
    simp [getLocalDateString, specLocalDay]
  · intro h
    have hb : (timezone == "Asia/Dhaka") = false := by
      simpa using h
    simp [getLocalDateString, specLocalDay, hb]

/-- C6 witness: the amended claim instantiated for Asia/Dhaka on a UTC
server late on epoch day 0 UTC (already day 1 in Dhaka), discharging the
timezone hypotheses and a concrete skeleton membership. -/
theorem C6_amended_witness :
    (createEmptyWeekData "Asia/Dhaka" 0 82800000).length = 7 ∧
    getLocalDateString "Asia/Dhaka" 0 82800000 =
      specLocalDay dhakaOffsetMs 82800000 ∧
    getLocalDateString "UTC" 0 82800000 = specLocalDay 0 82800000 ∧
    (⟨1, 0, 0, 0⟩ : DayBucket).power = 0 := by
  refine ⟨(C6_amended "Asia/Dhaka" 0 82800000).2.1.1,
    (C6_amended "Asia/Dhaka" 0 82800000).2.2.2.1 rfl,
    (C6_amended "UTC" 0 82800000).2.2.2.2 (by decide), ?_⟩
  exact ((C6_amended "Asia/Dhaka" 0 82800000).2.1.2.2.2
    ⟨1, 0, 0, 0⟩ (by decide)).1

/-- Helper for C9: the update of one row rewrites at most the three value
fields of the first matching entry, so the date projection of the skeleton
is unchanged. -/
theorem applyDayRow_map_date (skel : List DayBucket) (r : DayRow) :
    (applyDayRow skel r).map DayBucket.date = skel.map DayBucket.date := by
  induction skel with
  | nil => rfl
  | cons b rest ih =>
      simp only [applyDayRow]
      split
      · simp [mergeDayBucket]
      · simp [ih]

/-- C9: merging any set of aggregated rows into the week or month skeleton
preserves the entry count, the order, and every date field (the date
projection is unchanged), and a row whose date matches no skeleton entry
leaves the skeleton untouched. -/
theorem C9_merge_frame (skel : List DayBucket) (rows : List DayRow)
    (r : DayRow) :
    (mergeRows skel rows).map DayBucket.date = skel.map DayBucket.date ∧
    ((∀ b ∈ skel, b.date ≠ r.date) → applyDayRow skel r = skel) := by
  constructor
  · induction rows generalizing skel with
    | nil => rfl
    | cons r0 rest ih =>
        simp only [mergeRows, List.foldl_cons] at *
        rw [ih (applyDayRow skel r0), applyDayRow_map_date]
  · intro h
    induction skel with
    | nil => rfl
    | cons b rest ih =>
        have hb : (b.date == r.date) = false := by
          simpa using h b (List.mem_cons_self b rest)
        simp only [applyDayRow, hb, if_neg Bool.false_ne_true]
        rw [ih (fun x hx => h x (List.mem_cons_of_mem b hx))]

/-- C9 witness: a concrete one-entry skeleton and a row with a foreign
date: the date projection is preserved and the row is discarded. -/
theorem C9_merge_frame_witness :
    (mergeRows [⟨5, 0, 0, 0⟩] [⟨7, some 1, none, none⟩]).map
        DayBucket.date = [5] ∧
    applyDayRow [⟨5, 0, 0, 0⟩] ⟨7, some 1, none, none⟩ = [⟨5, 0, 0, 0⟩] := by
  refine ⟨(C9_merge_frame [⟨5, 0, 0, 0⟩] [⟨7, some 1, none, none⟩]
    ⟨7, some 1, none, none⟩).1, ?_⟩
  refine (C9_merge_frame [⟨5, 0, 0, 0⟩] [] ⟨7, some 1, none, none⟩).2 ?_
  intro b hb
  rw [List.mem_singleton] at hb
  subst hb
  decide

/-! ### Theorems for claims C2, C7 -/

/-- Helper for C2: rounding of zero is zero. -/
theorem roundToDec_zero (n : Nat) : roundToDec n 0 = 0 := by
  simp [roundToDec]

/-- Helper for C2: threading the previous timestamp through the fold
computes exactly the pairwise sum of the claim formula. -/
theorem totalKwhFrom_some (l : List (Int × ℚ)) :
    ∀ a : Int × ℚ, totalKwhFrom (some a.1) l = specKwhSum (a :: l) := by
  induction l with
  | nil => intro a; rfl
  | cons b rest ih =>
      intro a
      obtain ⟨t, p⟩ := b
      simp only [totalKwhFrom, intervalKwh, specKwhSum]
      rw [ih (t, p)]

/-- Helper for C2: the code fold from no previous timestamp equals the
claim formula, the first point contributing zero. -/
theorem totalKwhFrom_eq_specKwhSum (l : List (Int × ℚ)) :
    totalKwhFrom none l = specKwhSum l := by
  cases l with
  | nil => rfl
  | cons a rest =>
      obtain ⟨t, p⟩ := a
      simp only [totalKwhFrom, intervalKwh]
      rw [totalKwhFrom_some rest (t, p)]
      simp

/-- C2 counterexample: two qualifying samples 0.1 hour apart with
cur_power raw 1 have an exact integral of 1/100000 kWh, but the endpoint
returns kwh = 0 because the total is rounded by toFixed(4); hence the
returned kwh is not the exact sum of the claim formula. -/
theorem C2_counterexample :
    (todayConsumption [consumptionSampleA, consumptionSampleB]
        0 360000).kwh = 0 ∧
    specKwhSum (sortByTime (qualifyingPoints
        [consumptionSampleA, consumptionSampleB] 0 360000)) = 1 / 100000 ∧
    (0 : ℚ) ≠ 1 / 100000 := by
  have hq : sortByTime (qualifyingPoints
      [consumptionSampleA, consumptionSampleB] 0 360000) =
      [((0 : Int), (1 : ℚ)), ((360000 : Int), (1 : ℚ))] := by decide
  have hs : specKwhSum [((0 : Int), (1 : ℚ)), ((360000 : Int), (1 : ℚ))] =
      1 / 100000 := by
    simp only [specKwhSum]
    norm_num
  refine ⟨?_, by rw [hq]; exact hs, by norm_num⟩
  simp only [todayConsumption, hq]
  norm_num [totalKwhFrom, intervalKwh, roundToDec, round_eq]

/-- C2 amended: the consumption endpoint returns kwh equal to the claim
formula sum rounded to 4 decimal places, cost equal to (sum times 10)
rounded to 2 decimal places, and dataPoints equal to the number of
qualifying samples; an empty qualifying set yields exactly
kwh 0, cost 0, dataPoints 0, and the computation is total. -/
theorem C2_amended (samples : List Sample) (todayStart now : Int) :
    todayConsumption samples todayStart now =
      ⟨roundToDec 4 (specKwhSum (sortByTime
          (qualifyingPoints samples todayStart now))),
        roundToDec 2 (specKwhSum (sortByTime
          (qualifyingPoints samples todayStart now)) * 10),
        (sortByTime (qualifyingPoints samples todayStart now)).length⟩ ∧
    (qualifyingPoints samples todayStart now = [] →
      todayConsumption samples todayStart now = ⟨0, 0, 0⟩) := by
  constructor
  · simp only [todayConsumption]
    by_cases h : (sortByTime (qualifyingPoints samples todayStart now)).isEmpty
    · rw [if_pos h]
      have he : sortByTime (qualifyingPoints samples todayStart now) = [] :=
        List.isEmpty_iff.mp h
      rw [he]
      show (⟨0, 0, 0⟩ : ConsumptionResult) = _
      rw [show specKwhSum [] = 0 from rfl, roundToDec_zero, zero_mul,
        roundToDec_zero]
      rfl
    · rw [if_neg h, totalKwhFrom_eq_specKwhSum]
  · intro h
    simp only [todayConsumption, h]
    rfl

/-- C2 amended witness: the empty-store case through the hypothesis of the
second conjunct. -/
theorem C2_amended_witness :
    todayConsumption [] 0 360000 = ⟨0, 0, 0⟩ :=
  (C2_amended [] 0 360000).2 rfl

/-- Helper for C7: the pipeline on a store holding exactly one sample with
a single cur_power entry of raw value q inside the window produces the
skeleton with q / 10 at the Dhaka hour of the sample and zeros
elsewhere. -/
theorem todayPipeline_single (t startT endT : Int) (q : ℚ)
    (h1 : startT ≤ t) (h2 : t ≤ endT) :
    (group2 (group1 (unwindToday [⟨t, [⟨"cur_power", JValue.num q⟩]⟩]
        startT endT))).foldl applyHourRow createEmptyTodayData =
      createEmptyTodayData.map (fun b =>
        if b.hour == dhakaHourOf t then ⟨b.hour, q / 10, 0, 0⟩ else b) := by
  have hw : unwindToday [⟨t, [⟨"cur_power", JValue.num q⟩]⟩] startT endT =
      [⟨dhakaHourOf t, "cur_power", JValue.num q⟩] := by
    simp [unwindToday, h1, h2]
  have hg1 : group1 [⟨dhakaHourOf t, "cur_power", JValue.num q⟩] =
      [⟨dhakaHourOf t, "cur_power", some q⟩] := by
    simp [group1, avgOpt, numOnly]
  have hg2 : group2 [⟨dhakaHourOf t, "cur_power", some q⟩] =
      [⟨dhakaHourOf t, some (q / 10), none, none⟩] := by
    simp [group2, pivotHour, avgOpt]
  rw [hw, hg1, hg2]
  simp only [List.foldl_cons, List.foldl_nil, applyHourRow]
  refine List.map_congr_left ?_
  intro b hb
  simp only [createEmptyTodayData, List.mem_map, List.mem_range] at hb
  obtain ⟨h, _, rfl⟩ := hb
  by_cases hh : ((h : Int) == dhakaHourOf t)
  · simp [hh]
  · simp [hh]

/-- C7 counterexample: a single sample with cur_power raw 1000 taken at
00:30 UTC, requested timezone UTC on a UTC server: the hour of the sample
in the requested timezone is 0, yet the aggregation leaves bucket 0 at
power 0 and instead writes power 100 into bucket 6, because the pipeline
extracts the hour with the hardcoded Asia/Dhaka timezone. -/
theorem C7_counterexample :
    specHourInZone 0 1800000 = 0 ∧
    ((getTodayDataFromDB [⟨1800000, [⟨"cur_power", JValue.num 1000⟩]⟩]
        "UTC" 0 1800000).map HourBucket.power)[0]? = some 0 ∧
    ((getTodayDataFromDB [⟨1800000, [⟨"cur_power", JValue.num 1000⟩]⟩]
        "UTC" 0 1800000).map HourBucket.power)[6]? = some 100 := by
  have hpipe := todayPipeline_single 1800000
    (getTodayStartInTimezone "UTC" 0 1800000)
    (getTodayEndInTimezone "UTC" 0 1800000) 1000 (by decide) (by decide)
  have hval : (1000 : ℚ) / 10 = 100 := by norm_num
  rw [hval] at hpipe
  refine ⟨by decide, ?_, ?_⟩ <;>
    (simp only [getTodayDataFromDB, hpipe]; decide)

/-- C7 amended: for a store containing exactly one sample in the today
window with a single cur_power entry of raw value 1000, the today
aggregation for requested timezone Asia/Dhaka returns power 100 in the
bucket of the sample hour and leaves every other bucket zero, with the
bucket key being the hour of day of the sample in Asia/Dhaka; the hour
bucketing is hardcoded to Asia/Dhaka, so the bucket key matches the
requested timezone only when that is Asia/Dhaka. -/
theorem C7_amended (t serverOffset now : Int)
    (h1 : getTodayStartInTimezone "Asia/Dhaka" serverOffset now ≤ t)
    (h2 : t ≤ getTodayEndInTimezone "Asia/Dhaka" serverOffset now) :
    getTodayDataFromDB [⟨t, [⟨"cur_power", JValue.num 1000⟩]⟩] "Asia/Dhaka"
        serverOffset now =
      createEmptyTodayData.map (fun b =>
        if b.hour == dhakaHourOf t then ⟨b.hour, 100, 0, 0⟩ else b) := by
  have hpipe := todayPipeline_single t
    (getTodayStartInTimezone "Asia/Dhaka" serverOffset now)
    (getTodayEndInTimezone "Asia/Dhaka" serverOffset now) 1000 h1 h2
  have hval : (1000 : ℚ) / 10 = 100 := by norm_num
  rw [hval] at hpipe
  simpa only [getTodayDataFromDB] using hpipe

/-- C7 witness: the amended claim at the epoch instant on a UTC server:
the sample lands in Dhaka hour 6. -/
theorem C7_amended_witness :
    getTodayDataFromDB [⟨0, [⟨"cur_power", JValue.num 1000⟩]⟩] "Asia/Dhaka"
        0 0 =
      createEmptyTodayData.map (fun b =>
        if b.hour == dhakaHourOf 0 then ⟨b.hour, 100, 0, 0⟩ else b) :=
  C7_amended 0 0 0 (by decide) (by decide)

end TuyaBackend
